import Mathlib

/-!
Shallow embedding of the measurement instrumentation core of the
privacy-perf-comparisons repository: the network session/page logger
hierarchy (`FrameMeasurements` / `PageMeasurements` in
src/measurements/network.ts, mirrored by `PageNetworkLogger` /
`ContextNetworkLogger` in the measurer-based variants), the redirect
chain reconstruction loop, the shared measurer lifecycle
(`BaseMeasurer` in src/measurements/base.ts) and the two measurer
variants (`NetworkMeasurer.collect`, `TimingMeasurer.collect`).

Stateful methods are embedded in state-passing style: a method of a
class becomes a function from the state (plus arguments) to a pair of
result and updated state.  The single-threaded event-loop concurrency
of the source is embedded by splitting each `async` method at its
`await` suspension points into atomic segments, and parameterising the
operation by where a concurrent `close()` call lands (nowhere, before
the entry check, or inside a suspension).  `Date.now()` and the
request size/timing accessors of the automation layer are passed in as
explicit values.
-/

namespace PrivPerf

/-- One network datapoint, mirroring the `NetDatapoint` / `Datapoint`
interface of the source: `{size, time, type, url}`. -/
structure NetDatapoint where
  size : Int
  time : Int
  type : String
  url : String
deriving DecidableEq

/-- Result of `request.sizes()` in the automation surface. -/
structure RequestSizes where
  requestHeadersSize : Int
  requestBodySize : Int
  responseHeadersSize : Int
  responseBodySize : Int
deriving DecidableEq

/-- Result of `request.timing()` in the automation surface. -/
structure RequestTiming where
  startTime : Int
  responseEnd : Int
deriving DecidableEq

/-- The per-hop data of a request object. -/
structure RequestData where
  url : String
  resourceType : String
  sizes : RequestSizes
  timing : RequestTiming
deriving DecidableEq

/-- A playwright `Request` object together with its redirect ancestry:
`base` is a request with `redirectedFrom() === null`, `redir` is a
request whose `redirectedFrom()` returns the given predecessor. -/
inductive Request where
  | base (d : RequestData)
  | redir (d : RequestData) (prev : Request)
deriving DecidableEq

/-- The data carried by a request (url, resourceType, sizes, timing). -/
def Request.data : Request → RequestData
  | .base d => d
  | .redir d _ => d

/-- `request.url()`. -/
def Request.url (r : Request) : String := r.data.url

/-- `request.resourceType()`. -/
def Request.resourceType (r : Request) : String := r.data.resourceType

/-- `request.sizes()` (awaited in the source). -/
def Request.sizes (r : Request) : RequestSizes := r.data.sizes

/-- `request.timing()`. -/
def Request.timing (r : Request) : RequestTiming := r.data.timing

/-- `request.redirectedFrom()`. -/
def Request.redirectedFrom : Request → Option Request
  | .base _ => none
  | .redir _ p => some p

/-- The redirect chain of a request: the request itself followed by the
requests reached by walking `redirectedFrom`; the far-end original
request is the last element. -/
def Request.chain : Request → List Request
  | .base d => [.base d]
  | .redir d p => .redir d p :: Request.chain p

/-- A playwright `Response` object: its url and its originating request
(`response.request()`). -/
structure Response where
  url : String
  request : Request
deriving DecidableEq

/-- A websocket frame payload (`WSFrame = string | Buffer` in
src/types.ts): either a binary buffer of bytes or a text string. -/
inductive WSFrame where
  | binary (bytes : List Nat)
  | text (s : String)
deriving DecidableEq

/-- The number of UTF-16 code units of a string, which is what the
JavaScript `.length` property of a string evaluates to. -/
def utf16Length (s : String) : Nat :=
  s.data.foldl (fun n c => n + (if c.val < 65536 then 1 else 2)) 0

/-- The JavaScript `.length` property of a `WSFrame` payload: byte
count for a `Buffer`, UTF-16 code-unit count for a string. -/
def WSFrame.length : WSFrame → Nat
  | .binary bytes => bytes.length
  | .text s => utf16Length s

/-- The byte length of a `WSFrame` payload: byte count for a `Buffer`,
UTF-8 encoded byte count for a string. -/
def WSFrame.byteLength : WSFrame → Nat
  | .binary bytes => bytes.length
  | .text s => s.utf8ByteSize

/-- State of one `FrameMeasurements` / `PageNetworkLogger` instance:
the request and response datapoint sequences, the frame URL captured at
construction, and the construction timestamp.  The back-reference to
the owning session is represented by operating on frames through their
index inside the owning session state. -/
structure FrameMeasurements where
  requests : List NetDatapoint
  responses : List NetDatapoint
  frameURL : String
  startTime : Int
deriving DecidableEq

/-- State of one `PageMeasurements` / `ContextNetworkLogger` session
logger: the ordered frame logger sequence, the page-identity keyed
mapping (a `WeakMap` in the source, embedded as an association list
whose most recent binding wins), the closed flag, and the timestamps.
Page identities are embedded as natural numbers. -/
structure PageMeasurements where
  frameMeasurements : List FrameMeasurements
  pageToFrameMapping : List (Nat × Nat)
  isClosed : Bool
  startTime : Int
  endTime : Option Int
  description : Option String
deriving DecidableEq

/-- Replace the element at an index of a list by applying a function,
leaving every other element unchanged. -/
def modifyIdx {α : Type} (f : α → α) : Nat → List α → List α
  | _, [] => []
  | 0, x :: xs => f x :: xs
  | n + 1, x :: xs => x :: modifyIdx f n xs

/-- Lookup in the page-identity keyed mapping
(`this.#pageToFrameMapping.get(page)`): the index of the frame logger
most recently registered for the given page identity. -/
def lookupFrame (s : PageMeasurements) (pid : Nat) : Option Nat :=
  (s.pageToFrameMapping.find? (fun e => e.1 == pid)).map (·.2)

/-- The request datapoint sequence of the frame logger at an index of
the session (empty when the index is out of range). -/
def reqsAt (s : PageMeasurements) (fi : Nat) : List NetDatapoint :=
  match s.frameMeasurements.get? fi with
  | some f => f.requests
  | none => []

/-- The response datapoint sequence of the frame logger at an index of
the session (empty when the index is out of range). -/
def respsAt (s : PageMeasurements) (fi : Nat) : List NetDatapoint :=
  match s.frameMeasurements.get? fi with
  | some f => f.responses
  | none => []

/-- `this.#requests.push(datapoint)` on the frame logger at index
`fi` of the session. -/
def pushRequest (fi : Nat) (dp : NetDatapoint) (s : PageMeasurements) :
    PageMeasurements :=
  let fms := modifyIdx (fun f => { f with requests := f.requests ++ [dp] })
    fi s.frameMeasurements
  { s with frameMeasurements := fms }

/-- `this.#responses.push(datapoint)` on the frame logger at index
`fi` of the session. -/
def pushResponse (fi : Nat) (dp : NetDatapoint) (s : PageMeasurements) :
    PageMeasurements :=
  let fms := modifyIdx (fun f => { f with responses := f.responses ++ [dp] })
    fi s.frameMeasurements
  { s with frameMeasurements := fms }

/-- `PageMeasurements.close` (identical in `ContextNetworkLogger.close`
and `NetworkLogger.close`): on an open session it records the end time,
sets the closed flag and returns true; on a closed session it logs an
error and returns false without mutating anything. -/
def close (now : Int) (s : PageMeasurements) : Bool × PageMeasurements :=
  if s.isClosed then (false, s)
  else (true, { s with endTime := some now, isClosed := true })

/-- The datapoint built by `FrameMeasurements.addRequest` after the
awaited `request.sizes()` lookup resolves. -/
def requestDatapoint (req : Request) : NetDatapoint :=
  { size := req.sizes.requestHeadersSize + req.sizes.requestBodySize
    time := req.timing.startTime
    type := req.resourceType
    url := req.url }

/-- The datapoint built by `FrameMeasurements.addResponse` after the
awaited `request.sizes()` lookup resolves. -/
def responseDatapoint (resp : Response) : NetDatapoint :=
  { size := resp.request.sizes.responseHeadersSize
      + resp.request.sizes.responseBodySize
    time := resp.request.timing.responseEnd
    type := resp.request.resourceType
    url := resp.url }

/-- `FrameMeasurements.addRequest` run without any interleaved
`close()`: the entry `logErrorIfClosed` check rejects when the owning
session is closed; otherwise the datapoint is built from the awaited
sizes and timing, pushed onto the request sequence and returned. -/
def addRequest (fi : Nat) (req : Request) (s : PageMeasurements) :
    Option NetDatapoint × PageMeasurements :=
  if s.isClosed then (none, s)
  else (some (requestDatapoint req), pushRequest fi (requestDatapoint req) s)

/-- Where a concurrent `close()` call lands relative to an async record
operation, whose only suspension point is the awaited
`request.sizes()` between the entry check and the push. -/
inductive CloseAt where
  | no
  | before
  | mid
deriving DecidableEq

/-- `FrameMeasurements.addRequest` interleaved with at most one
concurrent `close(now)` call.  `CloseAt.before` runs the close before
the entry check; `CloseAt.mid` runs it inside the awaited
`request.sizes()` suspension, after the entry check has already
passed: the source performs the push without re-checking the closed
flag, so the push still happens on the closed state. -/
def addRequestW (fi : Nat) (req : Request) (now : Int) (c : CloseAt)
    (s : PageMeasurements) : Option NetDatapoint × PageMeasurements :=
  match c with
  | .no => addRequest fi req s
  | .before => addRequest fi req (close now s).2
  | .mid =>
    if s.isClosed then (none, (close now s).2)
    else
      (some (requestDatapoint req),
       pushRequest fi (requestDatapoint req) (close now s).2)

/-- The redirect chain reconstruction loop at the end of
`addResponse`: while the current request has a `redirectedFrom`
predecessor, call `addRequest` on the current request and step to the
predecessor.  Each delegated `addRequest` performs its own entry
closed check. -/
def redirectLoop (fi : Nat) : Request → PageMeasurements → PageMeasurements
  | .base _, s => s
  | .redir d p, s => redirectLoop fi p (addRequest fi (.redir d p) s).2

/-- `FrameMeasurements.addResponse` run without any interleaved
`close()`: entry closed check, push of the response datapoint, then
the redirect chain reconstruction loop over
`response.request().redirectedFrom()`. -/
def addResponse (fi : Nat) (resp : Response) (s : PageMeasurements) :
    Option NetDatapoint × PageMeasurements :=
  if s.isClosed then (none, s)
  else
    (some (responseDatapoint resp),
     redirectLoop fi resp.request (pushResponse fi (responseDatapoint resp) s))

/-- `FrameMeasurements.addResponse` interleaved with at most one
concurrent `close(now)` call, split at the awaited `request.sizes()`
suspension between the entry check and the push.  When the close lands
inside the suspension (`CloseAt.mid`), the source still pushes the
response datapoint without re-checking the closed flag; the redirect
loop that follows then runs on the closed state, so its delegated
`addRequest` calls are all rejected at their entry checks. -/
def addResponseW (fi : Nat) (resp : Response) (now : Int) (c : CloseAt)
    (s : PageMeasurements) : Option NetDatapoint × PageMeasurements :=
  match c with
  | .no => addResponse fi resp s
  | .before => addResponse fi resp (close now s).2
  | .mid =>
    if s.isClosed then (none, (close now s).2)
    else
      (some (responseDatapoint resp),
       redirectLoop fi resp.request
         (pushResponse fi (responseDatapoint resp) (close now s).2))

/-- `FrameMeasurements.addWebSocketRequest`: entry closed check, then a
datapoint with size `data.length`, the detection time `Date.now()`,
type `"websocket"` and the socket url is pushed onto the request
sequence and returned. -/
def addWebSocketRequest (fi : Nat) (url : String) (data : WSFrame)
    (now : Int) (s : PageMeasurements) :
    Option NetDatapoint × PageMeasurements :=
  if s.isClosed then (none, s)
  else
    (some { size := (WSFrame.length data : Int), time := now,
            type := "websocket", url := url },
     pushRequest fi
       { size := (WSFrame.length data : Int), time := now,
         type := "websocket", url := url } s)

/-- `FrameMeasurements.addWebSocketResponse`: same as the request
variant but pushing onto the response sequence. -/
def addWebSocketResponse (fi : Nat) (url : String) (data : WSFrame)
    (now : Int) (s : PageMeasurements) :
    Option NetDatapoint × PageMeasurements :=
  if s.isClosed then (none, s)
  else
    (some { size := (WSFrame.length data : Int), time := now,
            type := "websocket", url := url },
     pushResponse fi
       { size := (WSFrame.length data : Int), time := now,
         type := "websocket", url := url } s)

/-- `PageMeasurements.measurementsForNewTopFrame` /
`ContextNetworkLogger.notePage`: rejected with null when the session
is closed; otherwise a fresh frame logger for the page url is appended
to the ordered sequence and the mapping is repointed to it.  The
returned frame logger is represented by its index. -/
def measurementsForNewTopFrame (pid : Nat) (url : String) (now : Int)
    (s : PageMeasurements) : Option Nat × PageMeasurements :=
  if s.isClosed then (none, s)
  else
    (some s.frameMeasurements.length,
     { s with
        frameMeasurements := s.frameMeasurements ++
          [{ requests := [], responses := [], frameURL := url,
             startTime := now }]
        pageToFrameMapping :=
          (pid, s.frameMeasurements.length) :: s.pageToFrameMapping })

/-- Result of `PageMeasurements.addPageNavigation` /
`NetworkLogger.addPageNavigation`: the returned
`NavigationDatapoints` pair, a null return, or an `AssertionError`
thrown by one of the `assert(...)` calls on the delegated results. -/
inductive NavResult where
  | ok (reqDp : NetDatapoint) (respDp : NetDatapoint)
  | nullResult
  | assertionError
deriving DecidableEq

/-- Where a concurrent `close()` call lands relative to
`addPageNavigation`, whose suspension points are the awaited size
lookups inside the delegated `addRequest` (point A) and `addResponse`
(point B). -/
inductive NavSched where
  | noClose
  | closeBefore
  | closeAtA
  | closeAtB
deriving DecidableEq

/-- `PageMeasurements.addPageNavigation` interleaved with at most one
concurrent `close(now)` call.  The source: entry closed check (error
and null when closed), mapping lookup (error and null when the page is
unknown), delegated `addRequest(response.request())` followed by
`assert(requestDatapoint)`, delegated `addResponse(response)` followed
by `assert(responseDatapoint)`.  A close landing at point A happens
after the delegated addRequest has passed its own entry check, so the
request datapoint is still pushed; the delegated addResponse then
rejects at its entry check and the `assert` throws.  A close landing
at point B happens after the delegated addResponse has passed its
entry check, so the response datapoint is still pushed; the redirect
loop addRequest calls then reject at their entry checks. -/
def addPageNavigation (pid : Nat) (resp : Response) (now : Int)
    (sched : NavSched) (s : PageMeasurements) :
    NavResult × PageMeasurements :=
  let s0 := match sched with
    | .closeBefore => (close now s).2
    | _ => s
  if s0.isClosed then (.nullResult, s0)
  else
    match lookupFrame s0 pid with
    | none => (.nullResult, s0)
    | some fi =>
      let navReq := resp.request
      let sA := match sched with
        | .closeAtA => (close now s0).2
        | _ => s0
      let s1 := pushRequest fi (requestDatapoint navReq) sA
      if s1.isClosed then (.assertionError, s1)
      else
        let sB := match sched with
          | .closeAtB => (close now s1).2
          | _ => s1
        let s2 := redirectLoop fi navReq
          (pushResponse fi (responseDatapoint resp) sB)
        (.ok (requestDatapoint navReq) (responseDatapoint resp), s2)

/-- `ContextNetworkLogger.addWSRequest`: look the page identity up in
the mapping (`assert` on a missing entry, embedded as a null result)
and delegate to the frame logger. -/
def addWSRequestByPid (pid : Nat) (url : String) (data : WSFrame)
    (now : Int) (s : PageMeasurements) :
    Option NetDatapoint × PageMeasurements :=
  match lookupFrame s pid with
  | none => (none, s)
  | some fi => addWebSocketRequest fi url data now s

/-- Meta block of a frame logger report. -/
structure FrameReportMeta where
  startTime : Int
  url : String
deriving DecidableEq

/-- `FrameMeasurements.toJSON` output shape. -/
structure FrameReport where
  meta : FrameReportMeta
  requests : List NetDatapoint
  responses : List NetDatapoint
deriving DecidableEq

/-- Meta block of a session logger report. -/
structure SessionReportMeta where
  startTime : Int
  endTime : Option Int
  desc : Option String
deriving DecidableEq

/-- `PageMeasurements.toJSON` output shape. -/
structure SessionReport where
  meta : SessionReportMeta
  pages : List FrameReport
deriving DecidableEq

/-- `FrameMeasurements.toJSON`: snapshot of meta, requests and
responses. -/
def frameToJSON (f : FrameMeasurements) : FrameReport :=
  { meta := { startTime := f.startTime, url := f.frameURL }
    requests := f.requests
    responses := f.responses }

/-- `PageMeasurements.toJSON`: meta plus the per-frame reports in
creation order. -/
def sessionToJSON (s : PageMeasurements) : SessionReport :=
  { meta := { startTime := s.startTime, endTime := s.endTime,
              desc := s.description }
    pages := s.frameMeasurements.map frameToJSON }

/-- `FrameMeasurements.toJSON` in method form: the result paired with
the receiver state after the call.  The source method body only reads
fields, so the state is returned unchanged by translation. -/
def frameToJSONM (f : FrameMeasurements) : FrameReport × FrameMeasurements :=
  (frameToJSON f, f)

/-- `PageMeasurements.toJSON` in method form: the result paired with
the receiver state after the call. -/
def sessionToJSONM (s : PageMeasurements) :
    SessionReport × PageMeasurements :=
  (sessionToJSON s, s)

/-- Shared `BaseMeasurer` lifecycle state: instrumentation timestamp,
close timestamp, and the flag flipped by the browser context close
signal. -/
structure BaseMeasurerState where
  instrumentedAt : Option Int
  closedAt : Option Int
  isContextClosed : Bool
deriving DecidableEq

/-- `BaseMeasurer.closeIfOpen`: returns false when `closedAt` is
already set, otherwise records the close timestamp and returns
true. -/
def closeIfOpen (now : Int) (m : BaseMeasurerState) :
    Bool × BaseMeasurerState :=
  match m.closedAt with
  | some _ => (false, m)
  | none => (true, { m with closedAt := some now })

/-- `BaseMeasurer.close`: logs an error and returns false when already
closed, otherwise delegates to `closeIfOpen`. -/
def closeMeasurer (now : Int) (m : BaseMeasurerState) :
    Bool × BaseMeasurerState :=
  match m.closedAt with
  | some _ => (false, m)
  | none => closeIfOpen now m

/-- The measurement kind tag (`MeasurementType` in src/types.ts). -/
inductive MeasurementType where
  | network
  | timing
deriving DecidableEq

/-- State of a `NetworkMeasurer`: the shared base lifecycle state and
the owned session logger. -/
structure NetworkMeasurerState where
  base : BaseMeasurerState
  netLogger : PageMeasurements
deriving DecidableEq

/-- The `MeasurementResult` returned by `NetworkMeasurer.collect`. -/
structure NetworkResult where
  type : MeasurementType
  data : SessionReport
deriving DecidableEq

/-- `NetworkMeasurer.collect`: calls `this.closeIfOpen()` on the
measurer itself, then returns the measurement kind tag and
`this.netLogger.toJSON()`. -/
def networkCollect (now : Int) (st : NetworkMeasurerState) :
    NetworkResult × NetworkMeasurerState :=
  let b := (closeIfOpen now st.base).2
  ({ type := .network, data := sessionToJSON st.netLogger },
   { st with base := b })

/-- The JavaScript `String.prototype.startsWith` check, embedded on the
character sequence of the string. -/
def jsStartsWith (s pre : String) : Bool :=
  pre.data.isPrefixOf s.data

/-- Modelled from the spec: a URL uses a public web scheme when its
scheme is http or https (the spec excludes data:, about: and file:
URLs as carrying no meaningful timing).  Used only to compare the
specification wording against the filter the source implements. -/
def spec_usesPublicWebScheme (u : String) : Bool :=
  jsStartsWith u "http://" || jsStartsWith u "https://"

/-- The value an in-page `evaluate` of the injected timing script
resolves to: a navigation timing entry and an LCP entry, kept
abstract. -/
structure PageEvalResult where
  navigation : String
  lcp : String
deriving DecidableEq

/-- A currently open page of the automation context as seen by
`TimingMeasurer.collect`: its url and the value its injected timing
script evaluates to. -/
structure CtxPage where
  url : String
  evalResult : PageEvalResult
deriving DecidableEq

/-- One element of the timing array built by
`TimingMeasurer.collect`. -/
structure TimingEntry where
  url : String
  data : PageEvalResult
deriving DecidableEq

/-- The `MeasurementResult` returned by `TimingMeasurer.collect`. -/
structure TimingResult where
  type : MeasurementType
  data : List TimingEntry
deriving DecidableEq

/-- `TimingMeasurer.collect`: null on a closed context; otherwise one
entry per context page whose url passes the
`pageURL.startsWith("http")` filter, in context page order, skipping
all other pages. -/
def timingCollect (m : BaseMeasurerState) (pages : List CtxPage) :
    Option TimingResult :=
  if m.isContextClosed then none
  else
    some { type := .timing
           data := pages.filterMap (fun p =>
             if jsStartsWith p.url "http" then
               some { url := p.url, data := p.evalResult }
             else none) }

/-- Iterated registration of the same page identity:
`measurementsForNewTopFrame` run k times for the same page and url. -/
def registerK (pid : Nat) (url : String) (now : Int) :
    Nat → PageMeasurements → PageMeasurements
  | 0, s => s
  | k + 1, s =>
    registerK pid url now k (measurementsForNewTopFrame pid url now s).2

/-! Example values used by the concrete witnesses and counterexamples. -/

/-- Example request sizes. -/
def sizesEx : RequestSizes := ⟨10, 2, 20, 100⟩

/-- Example request timing. -/
def timingEx : RequestTiming := ⟨5, 9⟩

/-- Example request data for url a. -/
def reqDataA : RequestData := ⟨"https://a.test/", "document", sizesEx, timingEx⟩

/-- Example request data for url b. -/
def reqDataB : RequestData := ⟨"https://b.test/", "document", sizesEx, timingEx⟩

/-- Example request with no redirect ancestry. -/
def reqA : Request := .base reqDataA

/-- Example final request for url b, redirected from the original
request for url a. -/
def reqBA : Request := .redir reqDataB (.base reqDataA)

/-- Example response whose request carries one redirect predecessor. -/
def respBA : Response := ⟨"https://b.test/", reqBA⟩

/-- Example response with no redirect ancestry. -/
def respA : Response := ⟨"https://a.test/", reqA⟩

/-- Example empty frame logger. -/
def frame0 : FrameMeasurements := ⟨[], [], "https://a.test/", 1⟩

/-- Example open session with one registered page (identity 0 mapped
to frame index 0). -/
def sessOpen : PageMeasurements := ⟨[frame0], [(0, 0)], false, 0, none, none⟩

/-- Example network measurer state: instrumented, not yet closed, on
the open example session. -/
def netMeasEx : NetworkMeasurerState := ⟨⟨some 0, none, false⟩, sessOpen⟩

/-- Example page evaluation payload. -/
def evalEx : PageEvalResult := ⟨"nav", "lcp"⟩

/-- Example open base measurer state with a live context. -/
def baseOpenEx : BaseMeasurerState := ⟨some 0, none, false⟩

/-! Helper lemmas about the embedded state operations. -/

theorem modifyIdx_length {α : Type} (f : α → α) :
    ∀ (n : Nat) (l : List α), (modifyIdx f n l).length = l.length := by
  intro n l
  induction l generalizing n with
  | nil => cases n <;> rfl
  | cons x xs ih => cases n with
    | zero => rfl
    | succ m => simp [modifyIdx, ih]

theorem get?_modifyIdx_self {α : Type} (f : α → α) :
    ∀ (n : Nat) (l : List α), (modifyIdx f n l)[n]? = l[n]?.map f := by
  intro n l
  induction l generalizing n with
  | nil => cases n <;> rfl
  | cons x xs ih => cases n with
    | zero => simp [modifyIdx]
    | succ m => simpa [modifyIdx] using ih m

theorem get?_modifyIdx_ne {α : Type} (f : α → α) :
    ∀ {m n : Nat}, m ≠ n → ∀ (l : List α),
      (modifyIdx f n l)[m]? = l[m]? := by
  intro m n hmn l
  induction l generalizing m n with
  | nil => cases n <;> rfl
  | cons x xs ih =>
    cases n with
    | zero =>
      cases m with
      | zero => exact absurd rfl hmn
      | succ m => simp [modifyIdx]
    | succ n =>
      cases m with
      | zero => simp [modifyIdx]
      | succ m =>
        have : m ≠ n := fun h => hmn (by simp [h])
        simpa [modifyIdx] using ih this

theorem pushRequest_isClosed (fi : Nat) (dp : NetDatapoint)
    (s : PageMeasurements) : (pushRequest fi dp s).isClosed = s.isClosed := rfl

theorem pushResponse_isClosed (fi : Nat) (dp : NetDatapoint)
    (s : PageMeasurements) : (pushResponse fi dp s).isClosed = s.isClosed := rfl

theorem pushRequest_numFrames (fi : Nat) (dp : NetDatapoint)
    (s : PageMeasurements) :
    (pushRequest fi dp s).frameMeasurements.length
      = s.frameMeasurements.length := by
  simp [pushRequest, modifyIdx_length]

theorem pushResponse_numFrames (fi : Nat) (dp : NetDatapoint)
    (s : PageMeasurements) :
    (pushResponse fi dp s).frameMeasurements.length
      = s.frameMeasurements.length := by
  simp [pushResponse, modifyIdx_length]

theorem reqsAt_pushRequest_self (fi : Nat) (dp : NetDatapoint)
    (s : PageMeasurements) (h : fi < s.frameMeasurements.length) :
    reqsAt (pushRequest fi dp s) fi = reqsAt s fi ++ [dp] := by
  have hg := get?_modifyIdx_self
    (fun f => { f with requests := f.requests ++ [dp] }) fi s.frameMeasurements
  obtain ⟨f, hf⟩ : ∃ f, s.frameMeasurements[fi]? = some f :=
    ⟨_, List.getElem?_eq_getElem h⟩
  simp [reqsAt, pushRequest, hg, hf]

theorem reqsAt_pushRequest_ne (fi j : Nat) (dp : NetDatapoint)
    (s : PageMeasurements) (h : j ≠ fi) :
    reqsAt (pushRequest fi dp s) j = reqsAt s j := by
  have hg := get?_modifyIdx_ne
    (fun f => { f with requests := f.requests ++ [dp] }) h s.frameMeasurements
  simp [reqsAt, pushRequest, hg]

theorem reqsAt_pushResponse (fi j : Nat) (dp : NetDatapoint)
    (s : PageMeasurements) :
    reqsAt (pushResponse fi dp s) j = reqsAt s j := by
  by_cases hj : j = fi
  · subst hj
    have hg := get?_modifyIdx_self
      (fun f => { f with responses := f.responses ++ [dp] }) j
      s.frameMeasurements
    simp only [reqsAt, pushResponse, List.get?_eq_getElem?, hg]
    cases s.frameMeasurements[j]? <;> rfl
  · have hg := get?_modifyIdx_ne
      (fun f => { f with responses := f.responses ++ [dp] }) hj
      s.frameMeasurements
    simp [reqsAt, pushResponse, hg]

theorem respsAt_pushResponse_self (fi : Nat) (dp : NetDatapoint)
    (s : PageMeasurements) (h : fi < s.frameMeasurements.length) :
    respsAt (pushResponse fi dp s) fi = respsAt s fi ++ [dp] := by
  have hg := get?_modifyIdx_self
    (fun f => { f with responses := f.responses ++ [dp] }) fi
    s.frameMeasurements
  obtain ⟨f, hf⟩ : ∃ f, s.frameMeasurements[fi]? = some f :=
    ⟨_, List.getElem?_eq_getElem h⟩
  simp [respsAt, pushResponse, hg, hf]

theorem reqsAt_eq_nil_of_le (s : PageMeasurements) (j : Nat)
    (h : s.frameMeasurements.length ≤ j) : reqsAt s j = [] := by
  unfold reqsAt
  cases hq : s.frameMeasurements.get? j with
  | none => rfl
  | some f =>
    rw [List.get?_eq_getElem?, List.getElem?_eq_none h] at hq
    cases hq

theorem addRequest_isClosed (fi : Nat) (req : Request)
    (s : PageMeasurements) :
    (addRequest fi req s).2.isClosed = s.isClosed := by
  by_cases h : s.isClosed <;> simp [addRequest, h, pushRequest_isClosed]

theorem addRequest_numFrames (fi : Nat) (req : Request)
    (s : PageMeasurements) :
    (addRequest fi req s).2.frameMeasurements.length
      = s.frameMeasurements.length := by
  by_cases h : s.isClosed <;> simp [addRequest, h, pushRequest_numFrames]

theorem mem_reqsAt_addRequest (fi j : Nat) (req : Request)
    (s : PageMeasurements) (dp : NetDatapoint) (h : dp ∈ reqsAt s j) :
    dp ∈ reqsAt (addRequest fi req s).2 j := by
  by_cases hc : s.isClosed
  · simpa [addRequest, hc] using h
  · by_cases hj : j = fi
    · subst hj
      by_cases hlen : j < s.frameMeasurements.length
      · simp only [addRequest, hc, if_false, Bool.false_eq_true]
        rw [reqsAt_pushRequest_self _ _ _ hlen]
        exact List.mem_append_left _ h
      · have : reqsAt s j = [] :=
          reqsAt_eq_nil_of_le s j (Nat.le_of_not_lt hlen)
        rw [this] at h
        exact absurd h (List.not_mem_nil dp)
    · simp only [addRequest, hc, if_false, Bool.false_eq_true]
      rw [reqsAt_pushRequest_ne _ _ _ _ hj]
      exact h

theorem reqsAt_addRequest_self (fi : Nat) (req : Request)
    (s : PageMeasurements) (hc : s.isClosed = false)
    (h : fi < s.frameMeasurements.length) :
    reqsAt (addRequest fi req s).2 fi
      = reqsAt s fi ++ [requestDatapoint req] := by
  simp only [addRequest, hc, if_false, Bool.false_eq_true]
  exact reqsAt_pushRequest_self _ _ _ h

theorem redirectLoop_isClosed (fi : Nat) (r : Request)
    (s : PageMeasurements) :
    (redirectLoop fi r s).isClosed = s.isClosed := by
  induction r generalizing s with
  | base d => rfl
  | redir d p ih => simp [redirectLoop, ih, addRequest_isClosed]

theorem redirectLoop_numFrames (fi : Nat) (r : Request)
    (s : PageMeasurements) :
    (redirectLoop fi r s).frameMeasurements.length
      = s.frameMeasurements.length := by
  induction r generalizing s with
  | base d => rfl
  | redir d p ih => simp [redirectLoop, ih, addRequest_numFrames]

theorem mem_reqsAt_redirectLoop (fi j : Nat) (r : Request)
    (s : PageMeasurements) (dp : NetDatapoint) (h : dp ∈ reqsAt s j) :
    dp ∈ reqsAt (redirectLoop fi r s) j := by
  induction r generalizing s with
  | base d => exact h
  | redir d p ih =>
    exact ih _ (mem_reqsAt_addRequest fi j _ s dp h)

theorem chain_ne_nil (r : Request) : Request.chain r ≠ [] := by
  cases r <;> simp [Request.chain]

theorem redirectLoop_records (fi : Nat) (r : Request)
    (s : PageMeasurements) (hc : s.isClosed = false)
    (hlen : fi < s.frameMeasurements.length) :
    ∀ x ∈ (Request.chain r).dropLast,
      requestDatapoint x ∈ reqsAt (redirectLoop fi r s) fi := by
  induction r generalizing s with
  | base d => simp [Request.chain]
  | redir d p ih =>
    intro x hx
    have hchain : (Request.chain (.redir d p)).dropLast
        = Request.redir d p :: (Request.chain p).dropLast := by
      simp [Request.chain, List.dropLast_cons_of_ne_nil (chain_ne_nil p)]
    rw [hchain] at hx
    have hstep : (addRequest fi (.redir d p) s).2
        = pushRequest fi (requestDatapoint (.redir d p)) s := by
      simp [addRequest, hc]
    rcases List.mem_cons.1 hx with hx | hx
    · subst hx
      have hmem : requestDatapoint (.redir d p)
          ∈ reqsAt (addRequest fi (.redir d p) s).2 fi := by
        rw [hstep, reqsAt_pushRequest_self _ _ _ hlen]
        exact List.mem_append_right _ (List.mem_singleton_self _)
      exact mem_reqsAt_redirectLoop fi fi p _ _ hmem
    · have hc2 : (addRequest fi (.redir d p) s).2.isClosed = false := by
        rw [addRequest_isClosed]; exact hc
      have hlen2 : fi < (addRequest fi (.redir d p) s).2.frameMeasurements.length := by
        rw [addRequest_numFrames]; exact hlen
      exact ih _ hc2 hlen2 x hx

theorem lookupFrame_close (now : Int) (s : PageMeasurements) (pid : Nat) :
    lookupFrame (close now s).2 pid = lookupFrame s pid := by
  by_cases h : s.isClosed <;> simp [close, h, lookupFrame]

theorem close_frames (now : Int) (s : PageMeasurements) :
    (close now s).2.frameMeasurements = s.frameMeasurements := by
  by_cases h : s.isClosed <;> simp [close, h]

theorem close_mapping (now : Int) (s : PageMeasurements) :
    (close now s).2.pageToFrameMapping = s.pageToFrameMapping := by
  by_cases h : s.isClosed <;> simp [close, h]

theorem close_isClosed_of_open (now : Int) (s : PageMeasurements)
    (h : s.isClosed = false) : (close now s).2.isClosed = true := by
  simp [close, h]

theorem reqsAt_close (now : Int) (s : PageMeasurements) (fi : Nat) :
    reqsAt (close now s).2 fi = reqsAt s fi := by
  unfold reqsAt
  rw [close_frames]

theorem respsAt_close (now : Int) (s : PageMeasurements) (fi : Nat) :
    respsAt (close now s).2 fi = respsAt s fi := by
  unfold respsAt
  rw [close_frames]

theorem redirectLoop_of_closed (fi : Nat) (r : Request)
    (s : PageMeasurements) (h : s.isClosed = true) :
    redirectLoop fi r s = s := by
  induction r generalizing s with
  | base d => rfl
  | redir d p ih => simp [redirectLoop, addRequest, h, ih _ h]


/-! Claim theorems. -/

/-- C1, counterexample: the closed flag is checked only at entry, not
re-checked after the awaited size lookup.  On the concrete open
session, a close() that takes effect during the suspension of
addRequest (before the mutation) does not prevent the append: the
resulting session is closed, yet the datapoint was appended and
appears in the report, contradicting the claim that no datapoint is
appended when close() takes effect before the append. -/
theorem C1_counterexample :
    sessOpen.isClosed = false
    ∧ reqsAt sessOpen 0 = []
    ∧ (addRequestW 0 reqA 7 CloseAt.mid sessOpen).2.isClosed = true
    ∧ (addRequestW 0 reqA 7 CloseAt.mid sessOpen).2.endTime = some 7
    ∧ reqsAt (addRequestW 0 reqA 7 CloseAt.mid sessOpen).2 0
        = [requestDatapoint reqA]
    ∧ (sessionToJSON (addRequestW 0 reqA 7 CloseAt.mid sessOpen).2).pages.map
        FrameReport.requests = [[requestDatapoint reqA]] := by
  decide

/-- C1, amended: a record operation appends its datapoint if and only
if the owning session was open at the entry check of the operation; a
close() that takes effect inside the asynchronous size lookup, after
the entry check but before the mutation, does not prevent the append,
so the appended datapoint is recorded on the already closed session
and appears in toReport(); only a close() that takes effect before the
entry check makes the operation a rejected no-op.  The same holds for
addResponse, whose trailing redirect loop, however, re-checks the flag
through its delegated addRequest calls and therefore appends no
request datapoints after a mid-call close. -/
theorem C1_entry_check_only (s : PageMeasurements) (fi : Nat)
    (req : Request) (resp : Response) (now : Int)
    (hopen : s.isClosed = false)
    (hfi : fi < s.frameMeasurements.length) :
    (addRequestW fi req now CloseAt.before s).1 = none
    ∧ reqsAt (addRequestW fi req now CloseAt.before s).2 fi = reqsAt s fi
    ∧ (addRequestW fi req now CloseAt.mid s).1 = some (requestDatapoint req)
    ∧ (addRequestW fi req now CloseAt.mid s).2.isClosed = true
    ∧ reqsAt (addRequestW fi req now CloseAt.mid s).2 fi
        = reqsAt s fi ++ [requestDatapoint req]
    ∧ reqsAt (addRequestW fi req now CloseAt.no s).2 fi
        = reqsAt s fi ++ [requestDatapoint req]
    ∧ respsAt (addResponseW fi resp now CloseAt.mid s).2 fi
        = respsAt s fi ++ [responseDatapoint resp]
    ∧ reqsAt (addResponseW fi resp now CloseAt.mid s).2 fi = reqsAt s fi := by
  have hcl : (close now s).2.isClosed = true := close_isClosed_of_open now s hopen
  have hlen : fi < (close now s).2.frameMeasurements.length := by
    rw [close_frames]; exact hfi
  refine ⟨?_, ?_, ?_, ?_, ?_, ?_, ?_, ?_⟩
  · simp [addRequestW, addRequest, hcl]
  · simp only [addRequestW, addRequest, hcl, if_true]
    exact reqsAt_close now s fi
  · simp [addRequestW, hopen]
  · simp [addRequestW, hopen, pushRequest_isClosed, hcl]
  · simp only [addRequestW, hopen, if_false, Bool.false_eq_true]
    rw [reqsAt_pushRequest_self _ _ _ hlen, reqsAt_close]
  · simp only [addRequestW, addRequest, hopen, if_false, Bool.false_eq_true]
    exact reqsAt_pushRequest_self _ _ _ hfi
  · simp only [addResponseW, hopen, if_false, Bool.false_eq_true]
    rw [redirectLoop_of_closed _ _ _ (by rw [pushResponse_isClosed]; exact hcl)]
    rw [respsAt_pushResponse_self _ _ _ hlen, respsAt_close]
  · simp only [addResponseW, hopen, if_false, Bool.false_eq_true]
    rw [redirectLoop_of_closed _ _ _ (by rw [pushResponse_isClosed]; exact hcl)]
    rw [reqsAt_pushResponse, reqsAt_close]

/-- C1, witness: the amended theorem applied to the concrete open
example session. -/
theorem C1_entry_check_only_witness :
    sessOpen.isClosed = false
    ∧ 0 < sessOpen.frameMeasurements.length
    ∧ reqsAt (addRequestW 0 reqA 7 CloseAt.mid sessOpen).2 0
        = reqsAt sessOpen 0 ++ [requestDatapoint reqA] :=
  ⟨rfl, by decide,
    (C1_entry_check_only sessOpen 0 reqA respA 7 rfl (by decide)).2.2.2.2.1⟩

/-- C2, counterexample: on the concrete open session, a response whose
request has one redirect predecessor (chain length 2) leaves the
requests sequence containing only the final hop url; the far-end
original request url does not appear, so the requests sequence
contains fewer than N+1 distinct chain urls, contradicting the claim
that every hop including the original appears at least once. -/
theorem C2_counterexample :
    sessOpen.isClosed = false
    ∧ reqsAt sessOpen 0 = []
    ∧ Request.base reqDataA ∈ Request.chain respBA.request
    ∧ (Request.chain respBA.request).length = 2
    ∧ Request.url (Request.base reqDataA) = "https://a.test/"
    ∧ (reqsAt (addResponse 0 respBA sessOpen).2 0).map NetDatapoint.url
        = ["https://b.test/"]
    ∧ "https://a.test/"
        ∉ (reqsAt (addResponse 0 respBA sessOpen).2 0).map NetDatapoint.url := by
  decide

/-- C2, amended: after addResponse on an open session, every hop of
the redirect chain except the original request at the far end of the
redirectedFrom walk (that is, every hop that still has a predecessor)
appears in the requests sequence at least once; hence with N
predecessors and pairwise distinct hop urls, the requests sequence
contains at least N distinct urls reachable by walking redirectedFrom
from the final request.  The far-end original request is not appended
by addResponse itself: the source comments that it was already
recorded by the live event stream. -/
theorem C2_redirect_hops_recorded (s : PageMeasurements) (fi : Nat)
    (resp : Response) (hopen : s.isClosed = false)
    (hfi : fi < s.frameMeasurements.length) :
    (∀ r ∈ (Request.chain resp.request).dropLast,
        requestDatapoint r ∈ reqsAt (addResponse fi resp s).2 fi)
    ∧ (((Request.chain resp.request).map Request.url).Nodup →
        (Request.chain resp.request).length - 1 ≤
          ((reqsAt (addResponse fi resp s).2 fi).map
            NetDatapoint.url).toFinset.card) := by
  have hstep : (addResponse fi resp s).2
      = redirectLoop fi resp.request
          (pushResponse fi (responseDatapoint resp) s) := by
    simp [addResponse, hopen]
  have hc2 : (pushResponse fi (responseDatapoint resp) s).isClosed = false := by
    rw [pushResponse_isClosed]; exact hopen
  have hl2 :
      fi < (pushResponse fi (responseDatapoint resp) s).frameMeasurements.length := by
    rw [pushResponse_numFrames]; exact hfi
  have hmem : ∀ r ∈ (Request.chain resp.request).dropLast,
      requestDatapoint r ∈ reqsAt (addResponse fi resp s).2 fi := by
    rw [hstep]
    exact redirectLoop_records fi resp.request _ hc2 hl2
  refine ⟨hmem, fun hnod => ?_⟩
  have hsub : ((Request.chain resp.request).dropLast.map Request.url).toFinset
      ⊆ ((reqsAt (addResponse fi resp s).2 fi).map
          NetDatapoint.url).toFinset := by
    intro u hu
    rw [List.mem_toFinset] at hu ⊢
    obtain ⟨r, hr, rfl⟩ := List.mem_map.1 hu
    exact List.mem_map.2 ⟨requestDatapoint r, hmem r hr, rfl⟩
  have hnodDL : ((Request.chain resp.request).dropLast.map Request.url).Nodup := by
    rw [List.map_dropLast]
    exact List.Nodup.sublist (List.dropLast_sublist _) hnod
  have hlen : ((Request.chain resp.request).dropLast.map Request.url).length
      = (Request.chain resp.request).length - 1 := by
    simp
  calc (Request.chain resp.request).length - 1
      = ((Request.chain resp.request).dropLast.map
          Request.url).toFinset.card := by
        rw [List.toFinset_card_of_nodup hnodDL, hlen]
    _ ≤ _ := Finset.card_le_card hsub

/-- C2, witness: the amended theorem applied to the concrete open
session and the example two-hop redirect chain. -/
theorem C2_redirect_hops_recorded_witness :
    sessOpen.isClosed = false
    ∧ 0 < sessOpen.frameMeasurements.length
    ∧ reqBA ∈ (Request.chain respBA.request).dropLast
    ∧ requestDatapoint reqBA ∈ reqsAt (addResponse 0 respBA sessOpen).2 0 :=
  ⟨rfl, by decide, by decide,
    (C2_redirect_hops_recorded sessOpen 0 respBA rfl (by decide)).1 reqBA
      (by decide)⟩

/-- C3, counterexample: on the concrete instrumented measurer with an
open session logger, collect() leaves the session logger open with no
closing timestamp, and the returned report has meta.endTime unset,
contradicting the claim that collect() closes the owned session logger
and returns a report whose meta.endTime is set. -/
theorem C3_counterexample :
    netMeasEx.netLogger.isClosed = false
    ∧ (networkCollect 9 netMeasEx).2.netLogger.isClosed = false
    ∧ (networkCollect 9 netMeasEx).2.netLogger.endTime = none
    ∧ (networkCollect 9 netMeasEx).1.data.meta.endTime = none := by
  decide

/-- C3, amended: NetworkMeasurer.collect() closes the lifecycle record
of the measurer itself via closeIfOpen, setting its closedAt timestamp
if unset so that a later close() on the measurer returns false, and
returns the Network kind tag with session.toReport() as data; it does
not close the owned session logger: the session state, its closed flag
and its closing timestamp are unchanged, and the report carries
whatever endTime the session had, which stays unset unless close() was
called on the session separately. -/
theorem C3_collect_closes_measurer_not_session
    (st : NetworkMeasurerState) (now : Int) :
    networkCollect now st
      = ({ type := .network, data := sessionToJSON st.netLogger },
         { st with base := (closeIfOpen now st.base).2 })
    ∧ (networkCollect now st).2.netLogger = st.netLogger
    ∧ (networkCollect now st).1.data.meta.endTime = st.netLogger.endTime
    ∧ (networkCollect now st).1.data.meta.startTime = st.netLogger.startTime
    ∧ (networkCollect now st).2.base.closedAt
        = some (st.base.closedAt.getD now)
    ∧ (closeMeasurer now (networkCollect now st).2.base).1 = false := by
  cases h : st.base.closedAt <;>
    simp [networkCollect, closeIfOpen, closeMeasurer, sessionToJSON, h]

/-- C4, counterexample: on the concrete open session with a registered
page, a close() landing inside the delegated addRequest suspension
makes addPageNavigation throw an assertion error (not return null),
and the request datapoint has still been appended, so the operation is
not a no-op, contradicting the claim. -/
theorem C4_counterexample :
    sessOpen.isClosed = false
    ∧ lookupFrame sessOpen 0 = some 0
    ∧ (addPageNavigation 0 respA 9 NavSched.closeAtA sessOpen).1
        = NavResult.assertionError
    ∧ reqsAt (addPageNavigation 0 respA 9 NavSched.closeAtA sessOpen).2 0
        = [requestDatapoint reqA] := by
  decide

/-- C4, amended: when the session closes during the delegated
recordRequestSent suspension of a navigation record for a registered
page, the request datapoint is still appended, the delegated
recordResponseReceived is rejected at its entry check, and
addPageNavigation throws an assertion error instead of returning null,
leaving a partial record; null is returned only when the session is
already closed at entry or the page identity is unknown.  Without a
concurrent close, the call returns the datapoint pair. -/
theorem C4_mid_close_asserts (s : PageMeasurements) (pid fi : Nat)
    (resp : Response) (now : Int) (hopen : s.isClosed = false)
    (hfind : lookupFrame s pid = some fi)
    (hfi : fi < s.frameMeasurements.length) :
    (addPageNavigation pid resp now NavSched.closeAtA s).1
      = NavResult.assertionError
    ∧ (addPageNavigation pid resp now NavSched.closeAtA s).2.isClosed = true
    ∧ reqsAt (addPageNavigation pid resp now NavSched.closeAtA s).2 fi
        = reqsAt s fi ++ [requestDatapoint resp.request]
    ∧ (addPageNavigation pid resp now NavSched.closeAtA s).2.endTime = some now
    ∧ (addPageNavigation pid resp now NavSched.noClose s).1
        = NavResult.ok (requestDatapoint resp.request)
            (responseDatapoint resp) := by
  have hcl : (close now s).2.isClosed = true := close_isClosed_of_open now s hopen
  have hlen : fi < (close now s).2.frameMeasurements.length := by
    rw [close_frames]; exact hfi
  have hend : (close now s).2.endTime = some now := by simp [close, hopen]
  refine ⟨?_, ?_, ?_, ?_, ?_⟩
  · simp [addPageNavigation, hopen, hfind, pushRequest_isClosed, hcl]
  · simp [addPageNavigation, hopen, hfind, pushRequest_isClosed, hcl]
  · simp only [addPageNavigation, hopen, hfind, pushRequest_isClosed, hcl,
      if_false, if_true, Bool.false_eq_true]
    rw [reqsAt_pushRequest_self _ _ _ hlen, reqsAt_close]
  · simp [addPageNavigation, hopen, hfind, pushRequest_isClosed, hcl,
      pushRequest, hend]
  · simp [addPageNavigation, hopen, hfind, pushRequest_isClosed]

/-- C4, witness: the amended theorem applied to the concrete open
session with its registered page. -/
theorem C4_mid_close_asserts_witness :
    sessOpen.isClosed = false
    ∧ lookupFrame sessOpen 0 = some 0
    ∧ (addPageNavigation 0 respA 9 NavSched.closeAtA sessOpen).1
        = NavResult.assertionError :=
  ⟨rfl, by decide,
    (C4_mid_close_asserts sessOpen 0 0 respA 9 rfl (by decide) (by decide)).1⟩

/-- C5: on every open session the first close() returns true and sets
exactly the closing timestamp and the closed flag, leaving every other
field of the session state unchanged; every subsequent close() on the
resulting state returns false and returns the state unaltered,
whatever timestamp it is called at.  The embedded close is a total
function: the source method contains no throw. -/
theorem C5_close_once (s : PageMeasurements) (now : Int)
    (hopen : s.isClosed = false) :
    close now s = (true, { s with isClosed := true, endTime := some now })
    ∧ ∀ t : Int, close t (close now s).2 = (false, (close now s).2) := by
  constructor
  · simp [close, hopen]
  · intro t
    simp [close, hopen]

/-- C5, witness: the theorem applied to the concrete open session. -/
theorem C5_close_once_witness :
    sessOpen.isClosed = false
    ∧ close 9 sessOpen
        = (true, { sessOpen with isClosed := true, endTime := some 9 })
    ∧ close 11 (close 9 sessOpen).2 = (false, (close 9 sessOpen).2) :=
  ⟨rfl, (C5_close_once sessOpen 9 rfl).1, (C5_close_once sessOpen 9 rfl).2 11⟩



/-- C6: navigation recording for a page identity with no binding in
the page mapping returns null without touching the page collection:
with no concurrent close the session state is returned entirely
unchanged, and under any close interleaving the frame sequence, every
frame datapoint sequence, and the identity mapping are still exactly
those of the initial state. -/
theorem C6_unknown_page_noop (s : PageMeasurements) (pid : Nat)
    (resp : Response) (now : Int)
    (hunknown : lookupFrame s pid = none) :
    addPageNavigation pid resp now NavSched.noClose s
      = (NavResult.nullResult, s)
    ∧ ∀ sched : NavSched,
        (addPageNavigation pid resp now sched s).1 = NavResult.nullResult
        ∧ (addPageNavigation pid resp now sched s).2.frameMeasurements
            = s.frameMeasurements
        ∧ (addPageNavigation pid resp now sched s).2.pageToFrameMapping
            = s.pageToFrameMapping := by
  have h1 : addPageNavigation pid resp now NavSched.noClose s
      = (NavResult.nullResult, s) := by
    by_cases hc : s.isClosed <;> simp [addPageNavigation, hc, hunknown]
  refine ⟨h1, ?_⟩
  intro sched
  have hunknown2 : lookupFrame (close now s).2 pid = none := by
    rw [lookupFrame_close]; exact hunknown
  cases sched with
  | noClose => rw [h1]; exact ⟨rfl, rfl, rfl⟩
  | closeBefore =>
    by_cases hc : s.isClosed <;>
      simp [addPageNavigation, close, hc, hunknown, hunknown2]
  | closeAtA =>
    by_cases hc : s.isClosed <;> simp [addPageNavigation, hc, hunknown]
  | closeAtB =>
    by_cases hc : s.isClosed <;> simp [addPageNavigation, hc, hunknown]

/-- C6, witness: the theorem applied to the concrete open session and
the unregistered page identity 5. -/
theorem C6_unknown_page_noop_witness :
    lookupFrame sessOpen 5 = none
    ∧ addPageNavigation 5 respA 9 NavSched.noClose sessOpen
        = (NavResult.nullResult, sessOpen) :=
  ⟨by decide, (C6_unknown_page_noop sessOpen 5 respA 9 (by decide)).1⟩

/-- C7, counterexample: a page whose url is "httpfake://x" does not
use a public web scheme, yet collect() does not skip it, because the
source filter only tests startsWith("http"); this contradicts the
claim that every page whose url does not use a public web scheme is
skipped. -/
theorem C7_counterexample :
    baseOpenEx.isContextClosed = false
    ∧ spec_usesPublicWebScheme "httpfake://x" = false
    ∧ timingCollect baseOpenEx [⟨"httpfake://x", evalEx⟩]
        = some ⟨MeasurementType.timing, [⟨"httpfake://x", evalEx⟩]⟩ := by
  decide

/-- C7, amended: for every TimingMeasurer whose context is not closed,
collect() returns one timing entry, in context order, for exactly the
currently open pages whose url starts with "http" and skips every
other page (in particular data:, about: and file: urls are skipped);
for a context containing exactly one page at about:blank and one page
at https://x.test/, the returned timing array has length 1 and
contains only the https://x.test/ entry. -/
theorem C7_collect_filters (m : BaseMeasurerState) (pages : List CtxPage)
    (e1 e2 : PageEvalResult) (h : m.isContextClosed = false) :
    timingCollect m pages
      = some { type := .timing
               data := (pages.filter (fun p => jsStartsWith p.url "http")).map
                 (fun p => { url := p.url, data := p.evalResult }) }
    ∧ timingCollect m [⟨"about:blank", e1⟩, ⟨"https://x.test/", e2⟩]
        = some { type := .timing, data := [⟨"https://x.test/", e2⟩] } := by
  have hfm : ∀ ps : List CtxPage,
      ps.filterMap (fun p =>
        if jsStartsWith p.url "http" then
          some ({ url := p.url, data := p.evalResult } : TimingEntry)
        else none)
      = (ps.filter (fun p => jsStartsWith p.url "http")).map
          (fun p => { url := p.url, data := p.evalResult }) := by
    intro ps
    induction ps with
    | nil => rfl
    | cons p ps ih =>
      by_cases hp : jsStartsWith p.url "http" <;>
        simp [List.filterMap_cons, List.filter_cons, hp, ih]
  constructor
  · simp [timingCollect, h, hfm]
  · have ha : jsStartsWith "about:blank" "http" = false := by decide
    have hb : jsStartsWith "https://x.test/" "http" = true := by decide
    simp [timingCollect, h, List.filterMap_cons, ha, hb]

/-- C7, witness: the amended theorem applied to the concrete two-page
scenario. -/
theorem C7_collect_filters_witness :
    baseOpenEx.isContextClosed = false
    ∧ timingCollect baseOpenEx
        [⟨"about:blank", evalEx⟩, ⟨"https://x.test/", evalEx⟩]
        = some ⟨MeasurementType.timing, [⟨"https://x.test/", evalEx⟩]⟩ :=
  ⟨rfl, (C7_collect_filters baseOpenEx [] evalEx evalEx rfl).2⟩

/-- C8: toReport() is pure and idempotent at both levels of the logger
hierarchy: the method leaves the receiver state exactly as it was, in
any state, open or closed, and calling it twice with no intervening
writes yields structurally identical output. -/
theorem C8_toReport_pure_idempotent (s : PageMeasurements)
    (f : FrameMeasurements) :
    (sessionToJSONM s).2 = s
    ∧ (frameToJSONM f).2 = f
    ∧ (sessionToJSONM (sessionToJSONM s).2).1 = (sessionToJSONM s).1
    ∧ (frameToJSONM (frameToJSONM f).2).1 = (frameToJSONM f).1 :=
  ⟨rfl, rfl, rfl, rfl⟩

/-- C9, counterexample: a text websocket frame holding the single
character with code point 233 has JavaScript length 1, which is the
size the source records, but its byte length is 2; so the recorded
size does not equal the payload byte length for text frames,
contradicting the claim for text payloads. -/
theorem C9_counterexample :
    sessOpen.isClosed = false
    ∧ (addWebSocketRequest 0 "wss://w.test/" (WSFrame.text "é") 7
        sessOpen).1.map NetDatapoint.size = some 1
    ∧ (WSFrame.byteLength (WSFrame.text "é") : Int) = 2 := by
  decide

/-- C9, amended: for every websocket frame recorded on an open session
at a registered frame, the operation appends and returns a datapoint
whose size is the JavaScript length of the payload, whose time is the
detection time and whose type is websocket; for binary buffer payloads
that length equals the byte length of the payload, while for text
payloads it is the UTF-16 code unit count, which can differ from the
byte length. -/
theorem C9_ws_record (s : PageMeasurements) (fi : Nat) (url : String)
    (data : WSFrame) (now : Int) (hopen : s.isClosed = false)
    (hfi : fi < s.frameMeasurements.length) :
    addWebSocketRequest fi url data now s
      = (some { size := (WSFrame.length data : Int), time := now,
                type := "websocket", url := url },
         pushRequest fi
           { size := (WSFrame.length data : Int), time := now,
             type := "websocket", url := url } s)
    ∧ reqsAt (addWebSocketRequest fi url data now s).2 fi
        = reqsAt s fi
          ++ [{ size := (WSFrame.length data : Int), time := now,
                type := "websocket", url := url }]
    ∧ respsAt (addWebSocketResponse fi url data now s).2 fi
        = respsAt s fi
          ++ [{ size := (WSFrame.length data : Int), time := now,
                type := "websocket", url := url }]
    ∧ (∀ bytes, data = WSFrame.binary bytes →
        WSFrame.length data = WSFrame.byteLength data) := by
  refine ⟨?_, ?_, ?_, ?_⟩
  · simp [addWebSocketRequest, hopen]
  · simp only [addWebSocketRequest, hopen, if_false, Bool.false_eq_true]
    exact reqsAt_pushRequest_self _ _ _ hfi
  · simp only [addWebSocketResponse, hopen, if_false, Bool.false_eq_true]
    exact respsAt_pushResponse_self _ _ _ hfi
  · intro bytes hb
    subst hb
    rfl

/-- C9, witness: the amended theorem applied to a concrete binary
frame on the open example session. -/
theorem C9_ws_record_witness :
    sessOpen.isClosed = false
    ∧ 0 < sessOpen.frameMeasurements.length
    ∧ reqsAt (addWebSocketRequest 0 "wss://w.test/"
        (WSFrame.binary [1, 2, 3]) 7 sessOpen).2 0
      = reqsAt sessOpen 0
        ++ [{ size := (WSFrame.length (WSFrame.binary [1, 2, 3]) : Int),
              time := 7, type := "websocket", url := "wss://w.test/" }] :=
  ⟨rfl, by decide,
    (C9_ws_record sessOpen 0 "wss://w.test/" (WSFrame.binary [1, 2, 3]) 7 rfl
      (by decide)).2.1⟩



theorem notePage_isClosed (pid : Nat) (url : String) (now : Int)
    (s : PageMeasurements) :
    (measurementsForNewTopFrame pid url now s).2.isClosed = s.isClosed := by
  by_cases h : s.isClosed <;> simp [measurementsForNewTopFrame, h]

theorem notePage_frames_of_open (pid : Nat) (url : String) (now : Int)
    (s : PageMeasurements) (hopen : s.isClosed = false) :
    (measurementsForNewTopFrame pid url now s).2.frameMeasurements
      = s.frameMeasurements
        ++ [{ requests := [], responses := [], frameURL := url,
              startTime := now }] := by
  simp [measurementsForNewTopFrame, hopen]

theorem notePage_mapping_of_open (pid : Nat) (url : String) (now : Int)
    (s : PageMeasurements) (hopen : s.isClosed = false) :
    (measurementsForNewTopFrame pid url now s).2.pageToFrameMapping
      = (pid, s.frameMeasurements.length) :: s.pageToFrameMapping := by
  simp [measurementsForNewTopFrame, hopen]

theorem registerK_isClosed (pid : Nat) (url : String) (now : Int) :
    ∀ (k : Nat) (s : PageMeasurements),
      (registerK pid url now k s).isClosed = s.isClosed := by
  intro k
  induction k with
  | zero => intro s; rfl
  | succ k ih =>
    intro s
    simp only [registerK]
    rw [ih, notePage_isClosed]

theorem registerK_numFrames (pid : Nat) (url : String) (now : Int) :
    ∀ (k : Nat) (s : PageMeasurements), s.isClosed = false →
      (registerK pid url now k s).frameMeasurements.length
        = s.frameMeasurements.length + k := by
  intro k
  induction k with
  | zero => intro s _; rfl
  | succ k ih =>
    intro s hopen
    have hopen2 :
        (measurementsForNewTopFrame pid url now s).2.isClosed = false := by
      rw [notePage_isClosed]; exact hopen
    have hlen :
        (measurementsForNewTopFrame pid url now s).2.frameMeasurements.length
          = s.frameMeasurements.length + 1 := by
      rw [notePage_frames_of_open pid url now s hopen]; simp
    simp only [registerK]
    rw [ih _ hopen2, hlen]
    omega

theorem registerK_lookup (pid : Nat) (url : String) (now : Int) :
    ∀ (k : Nat) (s : PageMeasurements), s.isClosed = false → 0 < k →
      lookupFrame (registerK pid url now k s) pid
        = some (s.frameMeasurements.length + k - 1) := by
  intro k
  induction k with
  | zero => intro s _ hk; cases hk
  | succ k ih =>
    intro s hopen _
    have hopen2 :
        (measurementsForNewTopFrame pid url now s).2.isClosed = false := by
      rw [notePage_isClosed]; exact hopen
    rcases Nat.eq_zero_or_pos k with h0 | hpos
    · subst h0
      simp only [registerK]
      simp [lookupFrame, notePage_mapping_of_open pid url now s hopen]
    · have hstep := ih (measurementsForNewTopFrame pid url now s).2 hopen2 hpos
      have hlen :
          (measurementsForNewTopFrame pid url now s).2.frameMeasurements.length
            = s.frameMeasurements.length + 1 := by
        rw [notePage_frames_of_open pid url now s hopen]; simp
      simp only [registerK]
      rw [hstep, hlen]
      congr 1
      omega

/-- C10: re-registering the same page identity on an open session is
never rejected or asserted against: each registration returns the
fresh frame logger, appends it to the ordered sequence and repoints
the identity mapping to it, so after k registrations the session holds
and reports k additional page entries, the mapping resolves the
identity to the most recently appended entry, and a subsequent
websocket datapoint routed through the identity mapping is appended
only to that most recent entry, leaving every other entry
unchanged. -/
theorem C10_reregistration (s : PageMeasurements) (pid : Nat)
    (url wurl : String) (now nowT : Int) (k : Nat) (data : WSFrame)
    (hopen : s.isClosed = false) :
    (measurementsForNewTopFrame pid url now s).1
        = some s.frameMeasurements.length
    ∧ (registerK pid url now k s).isClosed = false
    ∧ (registerK pid url now k s).frameMeasurements.length
        = s.frameMeasurements.length + k
    ∧ (sessionToJSON (registerK pid url now k s)).pages.length
        = s.frameMeasurements.length + k
    ∧ (0 < k → lookupFrame (registerK pid url now k s) pid
        = some (s.frameMeasurements.length + k - 1))
    ∧ (0 < k →
        reqsAt (addWSRequestByPid pid wurl data nowT
            (registerK pid url now k s)).2
            (s.frameMeasurements.length + k - 1)
          = reqsAt (registerK pid url now k s)
              (s.frameMeasurements.length + k - 1)
            ++ [{ size := (WSFrame.length data : Int), time := nowT,
                  type := "websocket", url := wurl }]
        ∧ ∀ j, j ≠ s.frameMeasurements.length + k - 1 →
            reqsAt (addWSRequestByPid pid wurl data nowT
                (registerK pid url now k s)).2 j
              = reqsAt (registerK pid url now k s) j) := by
  have hclosed : (registerK pid url now k s).isClosed = false := by
    rw [registerK_isClosed]; exact hopen
  have hnum : (registerK pid url now k s).frameMeasurements.length
      = s.frameMeasurements.length + k :=
    registerK_numFrames pid url now k s hopen
  refine ⟨by simp [measurementsForNewTopFrame, hopen], hclosed, hnum, ?_, ?_, ?_⟩
  · simp [sessionToJSON, hnum]
  · intro hk
    exact registerK_lookup pid url now k s hopen hk
  · intro hk
    have hlk := registerK_lookup pid url now k s hopen hk
    have hidx : s.frameMeasurements.length + k - 1
        < (registerK pid url now k s).frameMeasurements.length := by
      rw [hnum]; omega
    constructor
    · simp only [addWSRequestByPid, hlk]
      simp only [addWebSocketRequest, hclosed, if_false, Bool.false_eq_true]
      exact reqsAt_pushRequest_self _ _ _ hidx
    · intro j hj
      simp only [addWSRequestByPid, hlk]
      simp only [addWebSocketRequest, hclosed, if_false, Bool.false_eq_true]
      exact reqsAt_pushRequest_ne _ _ _ _ hj

/-- C10, witness: the theorem applied to two registrations of the same
page identity on the concrete open session. -/
theorem C10_reregistration_witness :
    sessOpen.isClosed = false
    ∧ (0 : Nat) < 2
    ∧ lookupFrame (registerK 0 "https://a.test/" 3 2 sessOpen) 0 = some 2 :=
  ⟨rfl, by decide, by
    have h := (C10_reregistration sessOpen 0 "https://a.test/" "wss://w.test/"
      3 7 2 (WSFrame.binary []) rfl).2.2.2.2.1 (by decide)
    exact h⟩


end PrivPerf
